import Mathlib

/- A shallow embedding of the property-scraper core (src/scrapper.py):
   the listing data model, the filter engine, the dedup store, the
   orchestrator, and the per-site adapters, together with theorems about
   deduplication, filtering, site resolution, failure isolation, and the
   403 retry behaviour of the adapters' fetch stage. -/

namespace PropertyScraper

/-- A Python value that may occupy a listing's price or bedrooms slot: an
integer, a string, or None.  A missing dict key is represented by the
default the code supplies at the access site (`listing.get('price', 0)`). -/
inductive Value where
  | vInt (n : Int)
  | vStr (s : String)
  | vNone
  deriving DecidableEq, Repr

/-- A run of decimal digits to a number; fails on a non-digit. -/
def digitsToNatAux : List Char → Nat → Option Nat
  | [], acc => some acc
  | c :: t, acc => if c.isDigit then digitsToNatAux t (acc * 10 + (c.toNat - 48)) else none

/-- A non-empty run of decimal digits to a number. -/
def digitsToNat (l : List Char) : Option Nat :=
  if l.isEmpty then none else digitsToNatAux l 0

/-- Python `int(s)` on a string: optional surrounding whitespace, an
optional sign, then decimal digits; anything else raises ValueError
(here: none).  Digit-group underscores, which Python also accepts, are
not modelled; no claim touches them. -/
def pyStrToInt (s : String) : Option Int :=
  let l := ((s.data.dropWhile Char.isWhitespace).reverse.dropWhile Char.isWhitespace).reverse
  match l with
  | '-' :: rest => (digitsToNat rest).map (fun n => -(n : Int))
  | '+' :: rest => (digitsToNat rest).map (fun n => (n : Int))
  | rest => (digitsToNat rest).map (fun n => (n : Int))

/-- Python `int(x)` as `_meets_criteria` uses it: an int passes through, a
string is parsed, None raises TypeError (none). -/
def pyToInt : Value → Option Int
  | .vInt n => some n
  | .vStr s => pyStrToInt s
  | .vNone => none

/-- Python `str.lower()` (ASCII, which is all the claims exercise). -/
def lowerStr (s : String) : String := String.mk (s.data.map Char.toLower)

/-- Needle-in-haystack over char lists: the Python `sub in s` test. -/
def containsSub (needle : List Char) : List Char → Bool
  | [] => needle.isEmpty
  | c :: t => needle.isPrefixOf (c :: t) || containsSub needle t

/-- Python `sub in s` on strings. -/
def strContains (s sub : String) : Bool := containsSub sub.data s.data

/-- Whether `pre` is a prefix of `s`. -/
def strStartsWith (s pre : String) : Bool := pre.data.isPrefixOf s.data

/-- The normalized listing record the adapters produce (the dict each
adapter's parse stage builds). -/
structure Listing where
  id : String := ""
  title : String := ""
  price : Value := Value.vInt 0
  price_text : String := ""
  address : String := ""
  bedrooms : Value := Value.vInt 0
  description : String := ""
  link : String := ""
  images : List String := []
  source : String := ""
  deriving DecidableEq, Repr

/-- The `filters` block of the config (`config.get("filters", {})`); each
bound is none when the key is absent. -/
structure Filters where
  keywords : List String := []
  exclude_keywords : List String := []
  min_price : Option Int := none
  max_price : Option Int := none
  min_beds : Option Int := none
  max_beds : Option Int := none
  deriving DecidableEq, Repr

/-- One entry of the config's `sites` map: `enabled` is none when the key
is absent (the code reads it as `site_config.get("enabled", True)`). -/
structure SiteConfig where
  enabled : Option Bool := none
  deriving DecidableEq, Repr

/-- The parts of the config the orchestrator core reads.  The empty
config (all defaults) plays the role of the empty dict `{}`. -/
structure Config where
  sort_type : String := "default"
  sites : List (String × SiteConfig) := []
  filters : Filters := {}
  bypass_seen_check : Bool := false
  deriving DecidableEq, Repr

/-- The price block and the bedrooms block of `_meets_criteria`
(scrapper.py lines 182-201): when at least one bound is configured,
`int(...)` the value; a parse failure skips the bound (fail open), while a
parsed value below the min or above the max fails the check. -/
def boundFails (lo hi : Option Int) (v : Value) : Bool :=
  if lo.isSome || hi.isSome then
    match pyToInt v with
    | some n =>
        (match lo with | some m => decide (n < m) | none => false) ||
        (match hi with | some m => decide (n > m) | none => false)
    | none => false
  else false

/-- `PropertyScanner._meets_criteria` (scrapper.py lines 153-203).  The
`none` case stands for a falsy listing (`if not listing: return False`). -/
def _meets_criteria (filters : Filters) (listing : Option Listing) : Bool :=
  match listing with
  | none => false
  | some l =>
    let listing_text := lowerStr (l.title ++ " " ++ l.address ++ " " ++ l.description)
    if filters.exclude_keywords.any (fun kw => strContains listing_text (lowerStr kw)) then
      false
    else if !filters.keywords.isEmpty &&
        !(filters.keywords.any (fun kw => strContains listing_text (lowerStr kw))) then
      false
    else if boundFails filters.min_price filters.max_price l.price then
      false
    else if boundFails filters.min_beds filters.max_beds l.bedrooms then
      false
    else true

/-- The in-memory Dedup Store, i.e. the `seen_listings` dict mapping a
listing id to its first-seen ISO timestamp. -/
abbrev SeenStore := String → Option String

/-- The store an empty `seen_listings.csv` load yields. -/
def emptySeen : SeenStore := fun _ => none

/-- Python `id in self.seen_listings`. -/
def storeContains (s : SeenStore) (id : String) : Bool := (s id).isSome

/-- Python `self.seen_listings[id] = ts`. -/
def storeInsert (s : SeenStore) (id ts : String) : SeenStore :=
  fun x => if x = id then some ts else s x

/-- `PropertyScanner.filter_listings` (scrapper.py lines 134-151): drop a
listing whose id is already in the store unless the debug bypass flag is
set; a listing that then meets the criteria is appended to the output and
its id registered with the current timestamp.  `now` stands for the
`datetime.now().isoformat()` reading; nothing depends on its value. -/
def filter_listings (cfg : Config) (now : String) (seen : SeenStore) :
    List Listing → List Listing × SeenStore
  | [] => ([], seen)
  | l :: rest =>
    if storeContains seen l.id && !cfg.bypass_seen_check then
      filter_listings cfg now seen rest
    else if _meets_criteria cfg.filters (some l) then
      let res := filter_listings cfg now (storeInsert seen l.id now) rest
      (l :: res.1, res.2)
    else
      filter_listings cfg now seen rest

/-- One line of the orchestrator's per-site failure logging
(scrapper.py lines 98 and 109). -/
inductive LogEvent where
  | noAdapter (site : String)
  | fetchFailed (site : String) (err : String)
  deriving DecidableEq, Repr

/-- The site name a log line carries. -/
def LogEvent.site : LogEvent → String
  | .noAdapter s => s
  | .fetchFailed s _ => s

/-- The adapter registry together with the outcome of running a site's
three stages (build_url, fetch_listings, parse_listings): none when
`self.adapters.get(name)` has no entry, `.error` when any stage raises,
`.ok` the parsed listings. -/
abbrev AdapterRun := String → Option (Except String (List Listing))

/-- `PropertyScanner.fetch_listings` (scrapper.py lines 89-111): for each
site in order, a missing adapter is logged and skipped, an exception is
logged and the site contributes nothing, and a success appends its
listings to the aggregate. -/
def fetch_listings (adapters : AdapterRun) : List String → List Listing × List LogEvent
  | [] => ([], [])
  | site :: rest =>
    let res := fetch_listings adapters rest
    match adapters (lowerStr site) with
    | none => (res.1, LogEvent.noAdapter site :: res.2)
    | some (Except.error e) => (res.1, LogEvent.fetchFailed site e :: res.2)
    | some (Except.ok ls) => (ls ++ res.1, res.2)

/-- `PropertyScanner._get_enabled_sites` (scrapper.py lines 113-132): a
site is kept when its `enabled` flag is true or absent; when no site
qualifies the list defaults to exactly `["rightmove"]`. -/
def _get_enabled_sites (sites : List (String × SiteConfig)) : List String :=
  let enabled_sites := (sites.filter (fun p => p.2.enabled.getD true)).map Prod.fst
  if enabled_sites.isEmpty then ["rightmove"] else enabled_sites

/-- `PropertyScanner._load_config` (scrapper.py lines 31-40): a successful
load returns the parsed config; any exception is logged and the empty
dict is returned. -/
def _load_config (result : Except String Config) : Config :=
  match result with
  | .ok cfg => cfg
  | .error _ => {}

/-- The observable stages of one `run_scraper` call.  `notifySent` would
mark an actual `notify_user` call; `logNotifying` and `logUserNotified`
mark the two log lines around it. -/
inductive RunEvent where
  | fetched (count : Nat)
  | filtered (count : Nat)
  | logNotifying
  | logUserNotified
  | notifySent
  | persisted
  deriving DecidableEq, Repr

/-- `PropertyScanner.run_scraper` (scrapper.py lines 67-87): fetch, filter,
and — when the filtered result is non-empty — write the two notification
log lines; the `self.notify_user(filtered_listings)` call between them
(line 80) is commented out in the source, so no `notifySent` event is ever
emitted.  The seen store is then persisted.  The returned store stands for
what `_save_seen_listings` writes. -/
def run_scraper (adapters : AdapterRun) (cfg : Config) (seen : SeenStore)
    (now : String) : List RunEvent × SeenStore :=
  let fetched := fetch_listings adapters (_get_enabled_sites cfg.sites)
  let filtered := filter_listings cfg now seen fetched.1
  let notifyEvents : List RunEvent :=
    if filtered.1.isEmpty then []
    else [RunEvent.logNotifying, RunEvent.logUserNotified]
  ([RunEvent.fetched fetched.1.length, RunEvent.filtered filtered.1.length]
      ++ notifyEvents ++ [RunEvent.persisted], filtered.2)

/- Per-site listing construction.  Document parsing itself (BeautifulSoup
selectors, regexes, JSON navigation) is not embeddable; each structure
below holds the values an adapter has extracted for one candidate item
just before the `listing = { ... }` dict literal, and the function next to
it embeds that dict literal. -/

/-- The values `RightmoveAdapter._parse_from_json_data` extracts for one
property (scrapper.py lines 418-434); `propId` is `str(prop.get('id'))`
and `priceText` the resolved display price. -/
structure RightmoveRawProp where
  propId : String
  summary : String
  bedrooms : Int
  address : String
  amount : Int
  priceText : String
  propertyUrl : String
  imageUrls : List String
  deriving DecidableEq, Repr

/-- The listing dict of `RightmoveAdapter._parse_from_json_data`
(scrapper.py lines 436-445): the id is the bare raw identifier, with no
source prefix. -/
def rightmove_listing (p : RightmoveRawProp) : Listing :=
  { id := p.propId
  , title := if p.summary.isEmpty then "Property" else String.mk (p.summary.data.take 100)
  , price := Value.vInt p.amount
  , price_text := p.priceText
  , address := p.address
  , bedrooms := Value.vInt p.bedrooms
  , description := ""
  , link := if p.propertyUrl.isEmpty then "" else "https://www.rightmove.co.uk" ++ p.propertyUrl
  , images := p.imageUrls
  , source := "rightmove" }

/-- The values `ZooplaAdapter.parse_listings` extracts for one property
card (scrapper.py lines 583-650), defaults already applied. -/
structure ZooplaCard where
  idElem : String
  title : String
  price : Int
  priceText : String
  address : String
  bedrooms : Int
  link : String
  imageUrls : List String
  deriving DecidableEq, Repr

/-- The listing dict of `ZooplaAdapter.parse_listings`
(scrapper.py lines 653-663). -/
def zoopla_listing (c : ZooplaCard) : Listing :=
  { id := "zoopla-" ++ c.idElem
  , title := c.title
  , price := Value.vInt c.price
  , price_text := c.priceText
  , address := c.address
  , bedrooms := Value.vInt c.bedrooms
  , description := ""
  , link := c.link
  , images := c.imageUrls
  , source := "zoopla" }

/-- The values `OnTheMarketAdapter.parse_listings` extracts for one card
(scrapper.py lines 892-987). -/
structure OtmCard where
  idElem : String
  title : String
  price : Int
  priceText : String
  address : String
  bedrooms : Int
  description : String
  link : String
  imageUrls : List String
  deriving DecidableEq, Repr

/-- The listing dict of `OnTheMarketAdapter.parse_listings`
(scrapper.py lines 990-1001): the id prefix is the short tag `otm-`, not
the source name `onthemarket`. -/
def otm_listing (c : OtmCard) : Listing :=
  { id := "otm-" ++ c.idElem
  , title := c.title
  , price := Value.vInt c.price
  , price_text := c.priceText
  , address := c.address
  , bedrooms := Value.vInt c.bedrooms
  , description := c.description
  , link := c.link
  , images := c.imageUrls
  , source := "onthemarket" }

/-- The values `SpareroomAdapter.parse_listings` extracts for one card
(scrapper.py lines 1060-1120). -/
structure SpareroomCard where
  listingId : String
  title : String
  price : Int
  priceText : String
  address : String
  link : String
  imageUrls : List String
  deriving DecidableEq, Repr

/-- The listing dict of `SpareroomAdapter.parse_listings`
(scrapper.py lines 1123-1133); bedrooms is the fixed default 1 for rooms. -/
def spareroom_listing (c : SpareroomCard) : Listing :=
  { id := "spareroom-" ++ c.listingId
  , title := c.title
  , price := Value.vInt c.price
  , price_text := c.priceText
  , address := c.address
  , bedrooms := Value.vInt 1
  , description := ""
  , link := c.link
  , images := c.imageUrls
  , source := "spareroom" }

/-- The values `OpenRentAdapter.parse_listings` extracts for one card
(scrapper.py lines 1211-1276). -/
structure OpenrentCard where
  idElem : String
  title : String
  price : Int
  priceText : String
  address : String
  bedrooms : Int
  link : String
  imageUrls : List String
  deriving DecidableEq, Repr

/-- The listing dict of `OpenRentAdapter.parse_listings`
(scrapper.py lines 1279-1289). -/
def openrent_listing (c : OpenrentCard) : Listing :=
  { id := "openrent-" ++ c.idElem
  , title := c.title
  , price := Value.vInt c.price
  , price_text := c.priceText
  , address := c.address
  , bedrooms := Value.vInt c.bedrooms
  , description := ""
  , link := c.link
  , images := c.imageUrls
  , source := "openrent" }

/- The fetch stage's 403 handling. -/

/-- The User-Agent of the default request headers (scrapper.py line 259;
the ZooplaAdapter's own headers carry the same value, line 466). -/
def defaultUA : String := "Mozilla/5.0 (Macintosh; Intel Mac OS X 10_15_7) AppleWebKit/537.36 (KHTML, like Gecko) Chrome/120.0.0.0 Safari/537.36"

/-- The alternate User-Agent used for the single 403 retry
(scrapper.py lines 376 and 560). -/
def altUA : String := "Mozilla/5.0 (Windows NT 10.0; Win64; x64) AppleWebKit/537.36 (KHTML, like Gecko) Chrome/120.0.0.0 Safari/537.36"

/-- The status and body of an HTTP response. -/
structure HttpResponse where
  status : Nat
  text : String
  deriving DecidableEq, Repr

/-- An abstract remote site: the response its search URL returns for a
given User-Agent, the one request parameter the retry logic varies. -/
abbrev Server := String → HttpResponse

/-- `BaseAdapter.fetch_listings` (scrapper.py lines 271-276): a single
request with the default headers and no retry of any kind.  Returns the
body together with the User-Agents of the search-URL requests made. -/
def base_fetch (server : Server) : String × List String :=
  ((server defaultUA).text, [defaultUA])

/-- The overriding fetch of `RightmoveAdapter.fetch_listings`
(scrapper.py lines 347-383) and `ZooplaAdapter.fetch_listings`
(lines 531-567): a request with the default headers and, on a 403 status
only, exactly one retry with the alternate User-Agent; the retry's
response is returned whatever its status.  The preliminary homepage visit
and the exception-to-empty-string fallback do not affect the retry logic. -/
def retrying_fetch (server : Server) : String × List String :=
  let r := server defaultUA
  if r.status = 403 then
    let r2 := server altUA
    (r2.text, [defaultUA, altUA])
  else (r.text, [defaultUA])

/-- Which fetch implementation each adapter class uses: Rightmove and
Zoopla override `fetch_listings`, while OnTheMarket, SpareRoom and
OpenRent inherit `BaseAdapter.fetch_listings`. -/
def adapterFetch (site : String) : Server → String × List String :=
  match site with
  | "rightmove" => retrying_fetch
  | "zoopla" => retrying_fetch
  | _ => base_fetch

/- Helper lemmas about the Dedup Store and the filter pass. -/

/-- Membership in the store after one registration. -/
theorem storeContains_insert (s : SeenStore) (id ts x : String) :
    storeContains (storeInsert s id ts) x = true ↔
      x = id ∨ storeContains s x = true := by
  unfold storeContains storeInsert
  by_cases h : x = id
  · simp [h]
  · simp [h]

/-- A filter pass never removes an id from the store. -/
theorem filter_seen_mono (cfg : Config) (now : String) (i : String) :
    ∀ (ls : List Listing) (seen : SeenStore), storeContains seen i = true →
      storeContains (filter_listings cfg now seen ls).2 i = true := by
  intro ls
  induction ls with
  | nil => intro seen h; simpa [filter_listings] using h
  | cons l rest ih =>
    intro seen h
    simp only [filter_listings]
    split
    · exact ih seen h
    · split
      · exact ih _ ((storeContains_insert ..).mpr (Or.inr h))
      · exact ih seen h

/-- The output of a filter pass is a sublist of its input. -/
theorem filter_sublist (cfg : Config) (now : String) :
    ∀ (ls : List Listing) (seen : SeenStore),
      List.Sublist (filter_listings cfg now seen ls).1 ls := by
  intro ls
  induction ls with
  | nil => intro seen; simp [filter_listings]
  | cons l rest ih =>
    intro seen
    simp only [filter_listings]
    split
    · exact (ih seen).cons l
    · split
      · exact (ih _).cons₂ l
      · exact (ih seen).cons l

/-- An input listing that meets the criteria has its id in the store once
the pass is over, whatever the bypass flag. -/
theorem filter_pass_registers (cfg : Config) (now : String) :
    ∀ (ls : List Listing) (seen : SeenStore) (l : Listing), l ∈ ls →
      _meets_criteria cfg.filters (some l) = true →
      storeContains (filter_listings cfg now seen ls).2 l.id = true := by
  intro ls
  induction ls with
  | nil => intro seen l hmem _; cases hmem
  | cons a rest ih =>
    intro seen l hmem hmeets
    simp only [filter_listings]
    rcases List.mem_cons.mp hmem with rfl | hmem'
    · split
      · rename_i hcond
        have hseen : storeContains seen l.id = true := by
          simp only [Bool.and_eq_true] at hcond
          exact hcond.1
        exact filter_seen_mono cfg now l.id rest seen hseen
      · exact filter_seen_mono cfg now l.id rest _
          ((storeContains_insert ..).mpr (Or.inl rfl))
    · split
      · exact ih seen l hmem' hmeets
      · split
        · exact ih _ l hmem' hmeets
        · exact ih seen l hmem' hmeets

/-- With the bypass flag unset, a pass over listings that each either fail
the criteria or are already in the store returns nothing. -/
theorem filter_all_blocked (cfg : Config) (now : String)
    (hb : cfg.bypass_seen_check = false) :
    ∀ (ls : List Listing) (seen : SeenStore),
      (∀ l ∈ ls, _meets_criteria cfg.filters (some l) = false ∨
          storeContains seen l.id = true) →
      (filter_listings cfg now seen ls).1 = [] := by
  intro ls
  induction ls with
  | nil => intro seen _; simp [filter_listings]
  | cons a rest ih =>
    intro seen h
    have ha := h a (List.mem_cons_self a rest)
    simp only [filter_listings]
    split
    · exact ih seen (fun l hl => h l (List.mem_cons_of_mem a hl))
    · rename_i hskip
      rcases ha with hmc | hseen
      · split
        · rename_i hmt; simp [hmc] at hmt
        · exact ih seen (fun l hl => h l (List.mem_cons_of_mem a hl))
      · exfalso
        exact hskip (by simp [hseen, hb])

/- Helper lemmas about the aggregate fetch. -/

/-- The aggregate fetch returns exactly the concatenation, in site order,
of the listings of the sites whose adapter run succeeded. -/
theorem fetch_listings_eq_join (adapters : AdapterRun) :
    ∀ sites : List String,
      (fetch_listings adapters sites).1 =
        (sites.map (fun s =>
          match adapters (lowerStr s) with
          | some (Except.ok ls) => ls
          | _ => [])).flatten := by
  intro sites
  induction sites with
  | nil => simp [fetch_listings]
  | cons s rest ih =>
    simp only [fetch_listings, List.map_cons, List.flatten]
    cases h : adapters (lowerStr s) with
    | none => simp [h, ih]
    | some r =>
      cases r with
      | error e => simp [h, ih]
      | ok ls => simp [h, ih]

/-- A site whose adapter run did not succeed gets a log line carrying its
name. -/
theorem fetch_listings_logs_failure (adapters : AdapterRun) (bad : String)
    (hfail : adapters (lowerStr bad) = none ∨
      ∃ e, adapters (lowerStr bad) = some (Except.error e)) :
    ∀ sites : List String, bad ∈ sites →
      ∃ ev ∈ (fetch_listings adapters sites).2, ev.site = bad := by
  intro sites
  induction sites with
  | nil => intro h; cases h
  | cons s rest ih =>
    intro hmem
    rcases List.mem_cons.mp hmem with rfl | hmem'
    · rcases hfail with h | ⟨e, h⟩
      · exact ⟨LogEvent.noAdapter bad, by simp [fetch_listings, h], rfl⟩
      · exact ⟨LogEvent.fetchFailed bad e, by simp [fetch_listings, h], rfl⟩
    · obtain ⟨ev, hev, hsite⟩ := ih hmem'
      refine ⟨ev, ?_, hsite⟩
      simp only [fetch_listings]
      cases h : adapters (lowerStr s) with
      | none => simpa using Or.inr hev
      | some r =>
        cases r with
        | error e => simpa using Or.inr hev
        | ok ls => simpa using hev

/- The claims. -/

/-- C4: with the bypass flag unset, a first `filter_listings` call over
listings with pairwise-distinct ids returns a filtered subset (a sublist)
of the input, and a second call on the identical input, starting from the
store the first call produced, returns the empty sequence. -/
theorem filter_listings_idempotent (cfg : Config) (now1 now2 : String)
    (seen : SeenStore) (ls : List Listing)
    (hb : cfg.bypass_seen_check = false)
    (_hdist : ls.Pairwise (fun a b => a.id ≠ b.id)) :
    List.Sublist (filter_listings cfg now1 seen ls).1 ls ∧
    (filter_listings cfg now2 (filter_listings cfg now1 seen ls).2 ls).1 = [] := by
  refine ⟨filter_sublist cfg now1 ls seen, ?_⟩
  apply filter_all_blocked cfg now2 hb
  intro l hl
  by_cases hm : _meets_criteria cfg.filters (some l) = true
  · exact Or.inr (filter_pass_registers cfg now1 ls seen l hl hm)
  · simp only [Bool.not_eq_true] at hm
    exact Or.inl hm

/-- A config with a 1200 price cap and no other criteria. -/
def capConfig : Config := { filters := { max_price := some 1200 } }

/-- A listing priced 900 and one priced 1300, distinct ids. -/
def cheapFlat : Listing :=
  { id := "rm-900", title := "Flat A", price := Value.vInt 900
  , bedrooms := Value.vInt 1, source := "rightmove" }

def dearFlat : Listing :=
  { id := "rm-1300", title := "Flat B", price := Value.vInt 1300
  , bedrooms := Value.vInt 1, source := "rightmove" }

/-- C4 witness: the idempotence theorem applied to a concrete run over two
listings of which one passes the price cap. -/
theorem filter_listings_idempotent_witness :
    List.Sublist (filter_listings capConfig "t1" emptySeen [cheapFlat, dearFlat]).1
        [cheapFlat, dearFlat] ∧
    (filter_listings capConfig "t2"
        (filter_listings capConfig "t1" emptySeen [cheapFlat, dearFlat]).2
        [cheapFlat, dearFlat]).1 = [] :=
  filter_listings_idempotent capConfig "t1" "t2" emptySeen [cheapFlat, dearFlat]
    rfl (by decide)

/-- C10: after any `filter_listings` call — the bypass flag included in the
quantification — every returned listing's id is a key of the resulting
store (with a timestamp), and an id is a key of the resulting store
exactly when it was one before or belongs to a returned listing; in
particular listings that fail the criteria are never registered. -/
theorem filter_listings_registers_ids (cfg : Config) (now : String) :
    ∀ (ls : List Listing) (seen : SeenStore),
      (∀ l ∈ (filter_listings cfg now seen ls).1,
          storeContains (filter_listings cfg now seen ls).2 l.id = true) ∧
      (∀ i, storeContains (filter_listings cfg now seen ls).2 i = true ↔
          (storeContains seen i = true ∨
            ∃ l ∈ (filter_listings cfg now seen ls).1, l.id = i)) := by
  intro ls
  induction ls with
  | nil =>
    intro seen
    refine ⟨?_, ?_⟩
    · intro l h
      simp [filter_listings] at h
    · intro i
      simp [filter_listings]
  | cons a rest ih =>
    intro seen
    simp only [filter_listings]
    split
    · exact ih seen
    · split
      · obtain ⟨ih1, ih2⟩ := ih (storeInsert seen a.id now)
        refine ⟨?_, ?_⟩
        · intro l hl
          rcases List.mem_cons.mp hl with rfl | hl'
          · exact (ih2 l.id).mpr
              (Or.inl ((storeContains_insert ..).mpr (Or.inl rfl)))
          · exact ih1 l hl'
        · intro i
          show storeContains (filter_listings cfg now (storeInsert seen a.id now) rest).2 i = true ↔ _
          rw [ih2 i, storeContains_insert]
          simp only [List.mem_cons]
          constructor
          · rintro ((rfl | h) | ⟨l, hl, hid⟩)
            · exact Or.inr ⟨a, Or.inl rfl, rfl⟩
            · exact Or.inl h
            · exact Or.inr ⟨l, Or.inr hl, hid⟩
          · rintro (h | ⟨l, rfl | hl, hid⟩)
            · exact Or.inl (Or.inr h)
            · exact Or.inl (Or.inl hid.symm)
            · exact Or.inr ⟨l, hl, hid⟩
      · exact ih seen

/-- C10 witness: the registration theorem applied to a concrete pass; the
passing listing's id ends up in the store, and an id is in the final store
exactly when a returned listing carries it (the store started empty, and
the failing listing was not registered). -/
theorem filter_listings_registers_ids_witness :
    storeContains (filter_listings capConfig "t1" emptySeen [cheapFlat, dearFlat]).2
        cheapFlat.id = true ∧
    ¬ storeContains (filter_listings capConfig "t1" emptySeen [cheapFlat, dearFlat]).2
        dearFlat.id = true := by
  constructor
  · exact (filter_listings_registers_ids capConfig "t1" [cheapFlat, dearFlat]
      emptySeen).1 cheapFlat (by decide)
  · intro h
    have := ((filter_listings_registers_ids capConfig "t1" [cheapFlat, dearFlat]
      emptySeen).2 dearFlat.id).mp h
    revert this
    decide

/-- C5: when one site's adapter run fails (a raised error at any stage, or
no registered adapter) and every other enabled site succeeds, the
aggregate fetch returns exactly the union, in site order, of the
successful sites' listings — the failing site contributes zero listings —
and a log line carries the failing site's name. -/
theorem fetch_listings_isolates_failure (adapters : AdapterRun)
    (sites : List String) (bad : String) (succ : String → List Listing)
    (hbad : bad ∈ sites)
    (hfail : adapters (lowerStr bad) = none ∨
      ∃ e, adapters (lowerStr bad) = some (Except.error e))
    (hsucc : ∀ s ∈ sites, s ≠ bad →
      adapters (lowerStr s) = some (Except.ok (succ s))) :
    (fetch_listings adapters sites).1 =
      (sites.map (fun s => if s = bad then [] else succ s)).flatten ∧
    ∃ ev ∈ (fetch_listings adapters sites).2, ev.site = bad := by
  refine ⟨?_, fetch_listings_logs_failure adapters bad hfail sites hbad⟩
  rw [fetch_listings_eq_join]
  congr 1
  apply List.map_congr_left
  intro s hs
  by_cases h : s = bad
  · subst h
    rcases hfail with hf | ⟨e, hf⟩ <;> simp [hf]
  · simp [hsucc s hs h, h]

/-- Two listings siteB's adapter returns in the C5 scenario. -/
def roomB1 : Listing :=
  { id := "spareroom-101", title := "Room 1", price := Value.vInt 600
  , bedrooms := Value.vInt 1, source := "spareroom" }

def roomB2 : Listing :=
  { id := "spareroom-102", title := "Room 2", price := Value.vInt 650
  , bedrooms := Value.vInt 1, source := "spareroom" }

/-- The C5 scenario registry: siteA's run raises a network error, siteB's
returns two listings. -/
def scenarioAdapters : AdapterRun := fun s =>
  if s = "sitea" then some (Except.error "network unreachable")
  else if s = "siteb" then some (Except.ok [roomB1, roomB2])
  else none

/-- C5 witness: with siteA failing and siteB succeeding, the aggregate is
exactly siteB's two listings and a log line names siteA. -/
theorem fetch_listings_isolates_failure_witness :
    (fetch_listings scenarioAdapters ["siteA", "siteB"]).1 = [roomB1, roomB2] ∧
    ∃ ev ∈ (fetch_listings scenarioAdapters ["siteA", "siteB"]).2,
      ev.site = "siteA" := by
  have h := fetch_listings_isolates_failure scenarioAdapters ["siteA", "siteB"]
    "siteA" (fun _ => [roomB1, roomB2]) (by decide)
    (Or.inr ⟨"network unreachable", rfl⟩)
    (by
      intro s hs hne
      rcases List.mem_cons.mp hs with rfl | hs'
      · exact absurd rfl hne
      · rcases List.mem_cons.mp hs' with rfl | hs''
        · rfl
        · cases hs'')
  exact ⟨h.1.trans (by decide), h.2⟩

/-- A listing whose only varying field is its price slot. -/
def pricedListing (p : Value) : Listing :=
  { id := "p1", title := "Flat", price := p
  , bedrooms := Value.vInt 1, source := "rightmove" }

/-- C6: with min_price=800 and max_price=1200 a listing priced 900 passes
and one priced 1300 is excluded, while one whose price slot does not parse
as an integer is not excluded by the price check; each bound alone behaves
the same way, fail-open included. -/
theorem price_bound_fail_open :
    _meets_criteria { min_price := some 800, max_price := some 1200 }
        (some (pricedListing (Value.vInt 900))) = true ∧
    _meets_criteria { min_price := some 800, max_price := some 1200 }
        (some (pricedListing (Value.vInt 1300))) = false ∧
    _meets_criteria { min_price := some 800, max_price := some 1200 }
        (some (pricedListing (Value.vStr "per week: POA"))) = true ∧
    _meets_criteria { min_price := some 800 }
        (some (pricedListing (Value.vInt 700))) = false ∧
    _meets_criteria { min_price := some 800 }
        (some (pricedListing (Value.vInt 900))) = true ∧
    _meets_criteria { min_price := some 800 }
        (some (pricedListing (Value.vStr "per week: POA"))) = true ∧
    _meets_criteria { max_price := some 1200 }
        (some (pricedListing (Value.vInt 1300))) = false ∧
    _meets_criteria { max_price := some 1200 }
        (some (pricedListing (Value.vInt 900))) = true ∧
    _meets_criteria { max_price := some 1200 }
        (some (pricedListing Value.vNone)) = true := by
  decide

/-- C9: whenever some configured exclude-keyword occurs, case-insensitively,
as a substring of the space-joined concatenation of a listing's title,
address and description, `_meets_criteria` rejects the listing — whatever
its price and bedroom slots and whatever the include-keyword list and the
bounds say. -/
theorem exclude_keyword_rejects (f : Filters) (l : Listing) (kw : String)
    (hmem : kw ∈ f.exclude_keywords)
    (hsub : strContains (lowerStr (l.title ++ " " ++ l.address ++ " " ++ l.description))
      (lowerStr kw) = true) :
    _meets_criteria f (some l) = false := by
  have hany : f.exclude_keywords.any
      (fun k => strContains (lowerStr (l.title ++ " " ++ l.address ++ " " ++ l.description))
        (lowerStr k)) = true :=
    List.any_eq_true.mpr ⟨kw, hmem, hsub⟩
  simp only [_meets_criteria]
  rw [hany]
  rfl

/-- C9 witness: `exclude_keywords=["student"]` rejects a listing titled
"Student house" at a price and bedroom count that satisfy every bound. -/
theorem exclude_keyword_rejects_witness :
    _meets_criteria
      { exclude_keywords := ["student"], min_price := some 800
      , max_price := some 1200, min_beds := some 1, max_beds := some 3 }
      (some { id := "rm-7", title := "Student house", price := Value.vInt 900
            , bedrooms := Value.vInt 2, source := "rightmove" }) = false :=
  exclude_keyword_rejects _ _ "student" (by decide) (by decide)

/-- A listing the demo registry's rightmove adapter returns. -/
def demoListing : Listing :=
  { id := "164209706", title := "Garden flat", price := Value.vInt 950
  , bedrooms := Value.vInt 1, source := "rightmove" }

/-- A registry whose rightmove adapter run succeeds with one listing. -/
def demoAdapters : AdapterRun := fun s =>
  if s = "rightmove" then some (Except.ok [demoListing]) else none

/-- A config enabling exactly the rightmove site, with no filter criteria. -/
def demoConfig : Config := { sites := [("rightmove", { enabled := some true })] }

/-- C1: a full run whose filtered result is non-empty fetches, filters,
writes the two notification log lines and persists — but emits no
`notifySent` event, because the `self.notify_user(filtered_listings)` call
on line 80 of scrapper.py is commented out: the code claims "User
notified" in its log without notifying anyone. -/
theorem run_scraper_notification_not_sent :
    (run_scraper demoAdapters demoConfig emptySeen "2025-01-01T00:00:00").1 =
      [RunEvent.fetched 1, RunEvent.filtered 1, RunEvent.logNotifying,
        RunEvent.logUserNotified, RunEvent.persisted] ∧
    RunEvent.notifySent ∉
      (run_scraper demoAdapters demoConfig emptySeen "2025-01-01T00:00:00").1 := by
  decide

/-- C2 counterexample: when the config file cannot be loaded, the scanner
does not abort — `_load_config` returns the empty config, site resolution
defaults to rightmove, the rightmove adapter is consulted and its listings
are fetched, contradicting "no adapter is invoked and no listings are
fetched". -/
theorem config_load_failure_not_fatal_cex :
    _get_enabled_sites (_load_config (Except.error "missing file")).sites
      = ["rightmove"] ∧
    (fetch_listings demoAdapters
        (_get_enabled_sites (_load_config (Except.error "missing file")).sites)).1
      = [demoListing] := by
  decide

/-- C2 (amended): a configuration-load failure is not fatal — the loader
logs the error and returns the empty config, and the run proceeds: site
resolution yields exactly the default rightmove site and the registered
rightmove adapter's listings are fetched. -/
theorem config_load_failure_defaults_to_rightmove (e : String)
    (adapters : AdapterRun) (ls : List Listing)
    (h : adapters "rightmove" = some (Except.ok ls)) :
    _get_enabled_sites (_load_config (Except.error e)).sites = ["rightmove"] ∧
    (fetch_listings adapters
        (_get_enabled_sites (_load_config (Except.error e)).sites)).1 = ls := by
  refine ⟨rfl, ?_⟩
  show (fetch_listings adapters ["rightmove"]).1 = ls
  have hl : lowerStr "rightmove" = "rightmove" := rfl
  simp [fetch_listings, hl, h]

/-- C2 witness: the amended theorem applied to a concrete failed load and
the demo registry. -/
theorem config_load_failure_defaults_to_rightmove_witness :
    (fetch_listings demoAdapters
        (_get_enabled_sites (_load_config (Except.error "corrupt json")).sites)).1
      = [demoListing] :=
  (config_load_failure_defaults_to_rightmove "corrupt json" demoAdapters
    [demoListing] rfl).2

/-- Appending never falsifies the prefix test. -/
theorem strStartsWith_append (a b : String) : strStartsWith (a ++ b) a = true := by
  simp [strStartsWith, String.data_append, List.isPrefixOf_iff_prefix]

/-- The raw Rightmove property of the C3 counterexample. -/
def rmDemoRaw : RightmoveRawProp :=
  { propId := "164209706", summary := "Garden flat", bedrooms := 1
  , address := "BS1", amount := 950, priceText := "£950 pcm"
  , propertyUrl := "/properties/164209706", imageUrls := [] }

/-- C3 counterexample: the Rightmove adapter emits the raw identifier as
the listing id unchanged — the id of a listing from source "rightmove" is
not prefixed with the source name. -/
theorem rightmove_id_unprefixed_cex :
    (rightmove_listing rmDemoRaw).id = "164209706" ∧
    (rightmove_listing rmDemoRaw).source = "rightmove" ∧
    strStartsWith (rightmove_listing rmDemoRaw).id
        (rightmove_listing rmDemoRaw).source = false := by
  decide

/-- C3 (amended): the Zoopla, SpareRoom and OpenRent adapters build ids by
prefixing the raw identifier with their source name and a dash, the
OnTheMarket adapter prefixes the short tag `otm-` (its source name being
"onthemarket"), and the Rightmove adapter uses the bare raw identifier
with no prefix at all. -/
theorem adapter_id_construction (p : RightmoveRawProp) (zc : ZooplaCard)
    (oc : OtmCard) (sc : SpareroomCard) (rc : OpenrentCard) :
    (rightmove_listing p).id = p.propId ∧
    strStartsWith (zoopla_listing zc).id
      ((zoopla_listing zc).source ++ "-") = true ∧
    strStartsWith (spareroom_listing sc).id
      ((spareroom_listing sc).source ++ "-") = true ∧
    strStartsWith (openrent_listing rc).id
      ((openrent_listing rc).source ++ "-") = true ∧
    (otm_listing oc).source = "onthemarket" ∧
    strStartsWith (otm_listing oc).id "otm-" = true := by
  refine ⟨rfl, ?_, ?_, ?_, rfl, ?_⟩
  · exact strStartsWith_append "zoopla-" zc.idElem
  · exact strStartsWith_append "spareroom-" sc.listingId
  · exact strStartsWith_append "openrent-" rc.idElem
  · exact strStartsWith_append "otm-" oc.idElem

/-- Concrete extracted cards for the C3 witness. -/
def zooDemoCard : ZooplaCard :=
  { idElem := "67201573", title := "2 bed flat", price := 1100
  , priceText := "£1,100 pcm", address := "Clifton", bedrooms := 2
  , link := "", imageUrls := [] }

def otmDemoCard : OtmCard :=
  { idElem := "14731880", title := "Studio", price := 850
  , priceText := "£850 pcm", address := "", bedrooms := 1
  , description := "", link := "", imageUrls := [] }

def srDemoCard : SpareroomCard :=
  { listingId := "9912345", title := "Room to rent", price := 600
  , priceText := "£600 pcm", address := "", link := "", imageUrls := [] }

def orDemoCard : OpenrentCard :=
  { idElem := "2041775", title := "1 bed in Bristol", price := 975
  , priceText := "£975 per month", address := "Bristol", bedrooms := 1
  , link := "", imageUrls := [] }

/-- C3 witness: the id-construction theorem at one concrete extracted item
per adapter. -/
theorem adapter_id_construction_witness :
    (rightmove_listing rmDemoRaw).id = rmDemoRaw.propId ∧
    strStartsWith (zoopla_listing zooDemoCard).id
      ((zoopla_listing zooDemoCard).source ++ "-") = true ∧
    strStartsWith (spareroom_listing srDemoCard).id
      ((spareroom_listing srDemoCard).source ++ "-") = true ∧
    strStartsWith (openrent_listing orDemoCard).id
      ((openrent_listing orDemoCard).source ++ "-") = true ∧
    (otm_listing otmDemoCard).source = "onthemarket" ∧
    strStartsWith (otm_listing otmDemoCard).id "otm-" = true :=
  adapter_id_construction rmDemoRaw zooDemoCard otmDemoCard srDemoCard orDemoCard

/-- C7 (amended): only the Rightmove and Zoopla adapters react to a 403 —
with exactly one retry carrying the alternate (distinct) User-Agent; on a
non-403 they make the single default request, the three adapters that
inherit the base fetch always make the single default request whatever
the response, and no adapter ever issues more than two requests. -/
theorem fetch_retry_behavior (server : Server) :
    ((server defaultUA).status = 403 →
      (adapterFetch "rightmove" server).2 = [defaultUA, altUA] ∧
      (adapterFetch "zoopla" server).2 = [defaultUA, altUA]) ∧
    ((server defaultUA).status ≠ 403 →
      (adapterFetch "rightmove" server).2 = [defaultUA] ∧
      (adapterFetch "zoopla" server).2 = [defaultUA]) ∧
    (adapterFetch "onthemarket" server).2 = [defaultUA] ∧
    (adapterFetch "spareroom" server).2 = [defaultUA] ∧
    (adapterFetch "openrent" server).2 = [defaultUA] ∧
    (∀ site, (adapterFetch site server).2.length ≤ 2) ∧
    defaultUA ≠ altUA := by
  refine ⟨?_, ?_, rfl, rfl, rfl, ?_, by decide⟩
  · intro h
    constructor <;> (show (retrying_fetch server).2 = _) <;> simp [retrying_fetch, h]
  · intro h
    constructor <;> (show (retrying_fetch server).2 = _) <;> simp [retrying_fetch, h]
  · intro site
    have hcases : adapterFetch site = retrying_fetch ∨ adapterFetch site = base_fetch := by
      unfold adapterFetch
      split
      · exact Or.inl rfl
      · exact Or.inl rfl
      · exact Or.inr rfl
    rcases hcases with h | h <;> rw [h]
    · by_cases h403 : (server defaultUA).status = 403 <;>
        simp [retrying_fetch, h403]
    · simp [base_fetch]

/-- A remote site that answers 403 to every request. -/
def blockedServer : Server := fun _ => HttpResponse.mk 403 "Access denied"

/-- C7 witness: against an always-403 server, Rightmove and Zoopla retry
exactly once with the alternate User-Agent. -/
theorem fetch_retry_behavior_witness :
    (adapterFetch "rightmove" blockedServer).2 = [defaultUA, altUA] ∧
    (adapterFetch "zoopla" blockedServer).2 = [defaultUA, altUA] :=
  (fetch_retry_behavior blockedServer).1 rfl

/-- C7 counterexample: the three adapters that inherit the base fetch make
no retry at all on a 403 — a single request with the default identity —
contradicting "every adapter's fetch stage makes exactly one retry with an
alternate client identity". -/
theorem base_fetch_no_retry_cex :
    (adapterFetch "spareroom" blockedServer).2 = [defaultUA] ∧
    (adapterFetch "onthemarket" blockedServer).2 = [defaultUA] ∧
    (adapterFetch "openrent" blockedServer).2 = [defaultUA] ∧
    (adapterFetch "spareroom" blockedServer).2 ≠ [defaultUA, altUA] := by
  decide

/-- C8 counterexample: a config whose single site carries no `enabled` key
marks no site as explicitly enabled, yet resolution returns that site, not
the rightmove default — the flag defaults to true. -/
theorem enabled_sites_default_cex :
    (∀ p ∈ [("zoopla", ({ enabled := none } : SiteConfig))],
      p.2.enabled ≠ some true) ∧
    _get_enabled_sites [("zoopla", { enabled := none })] = ["zoopla"] ∧
    _get_enabled_sites [("zoopla", { enabled := none })] ≠ ["rightmove"] := by
  decide

/-- C8 (amended): a site counts as enabled when its `enabled` flag is true
or absent.  When every configured site is explicitly disabled (in
particular when no sites are configured) resolution yields exactly the
fixed default `["rightmove"]`; otherwise it yields exactly the sites that
count as enabled, in config order. -/
theorem enabled_sites_resolution (sites : List (String × SiteConfig)) :
    ((∀ p ∈ sites, p.2.enabled = some false) →
      _get_enabled_sites sites = ["rightmove"]) ∧
    ((∃ p ∈ sites, p.2.enabled ≠ some false) →
      _get_enabled_sites sites =
        (sites.filter (fun p => p.2.enabled.getD true)).map Prod.fst) := by
  constructor
  · intro h
    have hf : sites.filter (fun p => p.2.enabled.getD true) = [] := by
      rw [List.filter_eq_nil_iff]
      intro p hp
      rw [h p hp]
      simp
    simp [_get_enabled_sites, hf]
  · intro hex
    obtain ⟨p, hp, hne⟩ := hex
    have hmem : p ∈ sites.filter (fun q => q.2.enabled.getD true) := by
      refine List.mem_filter.mpr ⟨hp, ?_⟩
      cases h : p.2.enabled with
      | none => simp
      | some b => cases b <;> simp_all
    simp only [_get_enabled_sites]
    cases hfilter : sites.filter (fun q => q.2.enabled.getD true) with
    | nil => rw [hfilter] at hmem; cases hmem
    | cons q qs => simp [hfilter]

/-- C8 witness: an all-disabled config falls back to rightmove, and a
mixed config resolves to exactly its enabled site. -/
theorem enabled_sites_resolution_witness :
    _get_enabled_sites [("zoopla", { enabled := some false })] = ["rightmove"] ∧
    _get_enabled_sites [("zoopla", { enabled := some false }),
        ("spareroom", { enabled := some true })] = ["spareroom"] := by
  constructor
  · exact (enabled_sites_resolution [("zoopla", { enabled := some false })]).1
      (by decide)
  · exact ((enabled_sites_resolution [("zoopla", { enabled := some false }),
      ("spareroom", { enabled := some true })]).2 (by decide)).trans (by decide)

end PropertyScraper
